import Mathlib

/-!
Verification development for the PyBAMOCS six-box ocean model as described by
the repository specification and exercised by the tutorial script
`src/tutorials/pybamocs_six_box_tutorial.py`.  The engine itself
(`pybamocs.six_box_model`) is not part of the repository sources, so its data
model and operations are modelled from the specification; the tutorial file
fixes the public interface (argument-group names, the result attributes and
the fixed unpacking order of line 149).
All numeric quantities are modelled with exact rationals.
-/

namespace PyBamocs

/-- Modelled from the spec: the configuration field identifiers used by
construction-time validation errors (spec section 7, ConfigurationError
"identifying the offending field").  The engine source is missing from the
repository. -/
inductive ConfigField where
  | vNorthA | vNorthP | vSouth | vLowA | vLowPI | vDeep
  | dtField | durationField | amplitudeField
deriving DecidableEq, Repr

/-- Modelled from the spec: error raised at construction/validation time for
structurally invalid inputs (non-positive volume, non-positive step size,
malformed randomization amplitude); never raised mid-run. -/
inductive ConfigurationError where
  | nonPositiveVolume (f : ConfigField)
  | nonPositiveStep (f : ConfigField)
  | badRandomization (f : ConfigField)
deriving DecidableEq, Repr

/-- Modelled from the spec: error raised mid-run when a computed physical
quantity falls outside its admissible domain (density receiving out-of-range
T/S, division by an effectively zero volume). -/
inductive NumericalError where
  | densityDomain
  | zeroVolume
deriving DecidableEq, Repr

/-- A value per box, in the fixed box order
NORTH_A, NORTH_P, SOUTH, LOW_A, LOW_PI, DEEP (indices 0-5). -/
structure Vec6 (α : Type) where
  nA : α
  nP : α
  so : α
  lA : α
  lPI : α
  dp : α
deriving DecidableEq, Repr

/-- Modelled from the spec: per-box volumes (`SixBoxModelBoxDimensions`),
with sensible positive defaults.  The engine source is missing from the
repository. -/
structure SixBoxModelBoxDimensions where
  V_north_A : ℚ := 3
  V_north_P : ℚ := 3
  V_south : ℚ := 9
  V_low_A : ℚ := 6
  V_low_PI : ℚ := 12
  V_deep : ℚ := 27
deriving DecidableEq, Repr

/-- All volumes strictly positive (the construction-time validity condition). -/
def SixBoxModelBoxDimensions.allPositive (d : SixBoxModelBoxDimensions) : Prop :=
  0 < d.V_north_A ∧ 0 < d.V_north_P ∧ 0 < d.V_south ∧
  0 < d.V_low_A ∧ 0 < d.V_low_PI ∧ 0 < d.V_deep

instance (d : SixBoxModelBoxDimensions) : Decidable d.allPositive := by
  unfold SixBoxModelBoxDimensions.allPositive; infer_instance

/-- Modelled from the spec: construction-time validation of box dimensions;
all volumes must be strictly positive, violation fails with a
ConfigurationError identifying the offending field. -/
def SixBoxModelBoxDimensions.validate (d : SixBoxModelBoxDimensions) :
    Except ConfigurationError SixBoxModelBoxDimensions :=
  if d.V_north_A ≤ 0 then .error (.nonPositiveVolume .vNorthA)
  else if d.V_north_P ≤ 0 then .error (.nonPositiveVolume .vNorthP)
  else if d.V_south ≤ 0 then .error (.nonPositiveVolume .vSouth)
  else if d.V_low_A ≤ 0 then .error (.nonPositiveVolume .vLowA)
  else if d.V_low_PI ≤ 0 then .error (.nonPositiveVolume .vLowPI)
  else if d.V_deep ≤ 0 then .error (.nonPositiveVolume .vDeep)
  else .ok d

/-- Modelled from the spec: per-box initial temperature and salinity
(`SixBoxModelInitConditions`); field names follow the tutorial call
`SixBoxModelInitConditions(T_north_A0=...)`. -/
structure SixBoxModelInitConditions where
  T_north_A0 : ℚ := 4
  T_north_P0 : ℚ := 5
  T_south0 : ℚ := 6
  T_low_A0 : ℚ := 20
  T_low_PI0 : ℚ := 22
  T_deep0 : ℚ := 3
  S_north_A0 : ℚ := 35
  S_north_P0 : ℚ := 34
  S_south0 : ℚ := 35
  S_low_A0 : ℚ := 36
  S_low_PI0 : ℚ := 35
  S_deep0 : ℚ := 35
deriving DecidableEq, Repr

/-- Modelled from the spec: physical coefficients governing transport
(`SixBoxModelParameters`): overturning sensitivity, upwelling, eddy,
cross-basin-exchange and low-box diffusive coefficients, freshwater flux
terms `Fwn_A`/`Fwn_P` (the tutorial sweeps `Fwn_A`), and equation-of-state
coefficients. -/
structure SixBoxModelParameters where
  gamma : ℚ := 1/10
  K_upw : ℚ := 1/20
  K_eddy : ℚ := 1/20
  K_ex : ℚ := 1/50
  K_d : ℚ := 1/100
  Fwn_A : ℚ := 1/10
  Fwn_P : ℚ := 1/10
  S_ref : ℚ := 35
  alpha : ℚ := 1/5
  beta : ℚ := 4/5
deriving DecidableEq, Repr

/-- Modelled from the spec: total simulated duration and step size
(`SixBoxModelTimeStep`); step count is derived from them. -/
structure SixBoxModelTimeStep where
  duration : ℚ := 3
  dt : ℚ := 1
deriving DecidableEq, Repr

/-- The step count: duration divided by step size under the fixed rounding
rule (floor). -/
def SixBoxModelTimeStep.n_steps (ts : SixBoxModelTimeStep) : ℕ :=
  ⌊ts.duration / ts.dt⌋₊

/-- Modelled from the spec: construction-time validation of time stepping;
the step must be strictly positive and the duration at least one step. -/
def SixBoxModelTimeStep.validate (ts : SixBoxModelTimeStep) :
    Except ConfigurationError SixBoxModelTimeStep :=
  if ts.dt ≤ 0 then .error (.nonPositiveStep .dtField)
  else if ts.duration < ts.dt then .error (.nonPositiveStep .durationField)
  else .ok ts

/-- Modelled from the spec: noise amplitude and seed controlling reproducible
stochastic forcing (`SixBoxModelRandomization`). -/
structure SixBoxModelRandomization where
  amplitude : ℚ := 0
  seed : ℕ := 42
deriving DecidableEq, Repr

/-- Modelled from the spec: construction-time validation of randomization;
the amplitude must be non-negative. -/
def SixBoxModelRandomization.validate (r : SixBoxModelRandomization) :
    Except ConfigurationError SixBoxModelRandomization :=
  if r.amplitude < 0 then .error (.badRandomization .amplitudeField)
  else .ok r

/-- The admissible domain of the equation of state: a physically sane range of
temperature and salinity. -/
def admissibleTS (t s : ℚ) : Prop :=
  -4 ≤ t ∧ t ≤ 45 ∧ 0 ≤ s ∧ s ≤ 50

instance (t s : ℚ) : Decidable (admissibleTS t s) := by
  unfold admissibleTS; infer_instance

/-- Modelled from the spec: the closed-form (linear) potential-density-anomaly
formula, applied identically and independently to every box. -/
def sigma0Formula (p : SixBoxModelParameters) (t s : ℚ) : ℚ :=
  p.beta * s - p.alpha * t

/-- Modelled from the spec: the equation of state `density(T, S) -> sigma_0`;
pure, and fails with a NumericalError (instead of silently returning NaN)
when inputs are outside the admissible domain. -/
def density (p : SixBoxModelParameters) (t s : ℚ) : Except NumericalError ℚ :=
  if admissibleTS t s then .ok (sigma0Formula p t s) else .error .densityDomain

/-- Modelled from the spec: basin-specific thermohaline overturning between a
northern box and its corresponding low box, a function of their density
difference whose sign indicates circulation direction and is allowed to
flip. -/
def overturning (p : SixBoxModelParameters) (sigN sigLow : ℚ) : ℚ :=
  p.gamma * (sigN - sigLow)

/-- The nine instantaneous inter-box transport rates produced by the flux
model. -/
structure Fluxes where
  M_n_A : ℚ
  M_n_P : ℚ
  M_upw_A : ℚ
  M_upw_PI : ℚ
  M_eddy_A : ℚ
  M_eddy_PI : ℚ
  M_ex : ℚ
  D_low_A : ℚ
  D_low_PI : ℚ
deriving DecidableEq, Repr

/-- Modelled from the spec: the flux model, a pure function of the per-box
densities and the parameters with no hidden memory: per-basin overturning,
upwelling from the deep box to each low box, eddy transport between low and
southern boxes, cross-basin exchange and low-box diffusive terms. -/
def computeFluxes (p : SixBoxModelParameters) (sig : Vec6 ℚ) : Fluxes where
  M_n_A := overturning p sig.nA sig.lA
  M_n_P := overturning p sig.nP sig.lPI
  M_upw_A := p.K_upw * (sig.dp - sig.lA)
  M_upw_PI := p.K_upw * (sig.dp - sig.lPI)
  M_eddy_A := p.K_eddy * (sig.lA - sig.so)
  M_eddy_PI := p.K_eddy * (sig.lPI - sig.so)
  M_ex := p.K_ex * (sig.lA - sig.lPI)
  D_low_A := p.K_d * (sig.lA - sig.dp)
  D_low_PI := p.K_d * (sig.lPI - sig.dp)

/-- The integrator's per-box state: current temperature and salinity. -/
structure ModelState where
  T : Vec6 ℚ
  S : Vec6 ℚ
deriving DecidableEq, Repr

/-- The initial state derived from the initial conditions. -/
def initState (init : SixBoxModelInitConditions) : ModelState where
  T := ⟨init.T_north_A0, init.T_north_P0, init.T_south0,
        init.T_low_A0, init.T_low_PI0, init.T_deep0⟩
  S := ⟨init.S_north_A0, init.S_north_P0, init.S_south0,
        init.S_low_A0, init.S_low_PI0, init.S_deep0⟩

/-- One recorded time step: the step's densities, the updated per-box
temperature and salinity, and the step's transport terms. -/
structure StepRecord where
  sigma : Vec6 ℚ
  T : Vec6 ℚ
  S : Vec6 ℚ
  flux : Fluxes
deriving DecidableEq, Repr

/-- Modelled from the spec: the per-box densities for the current state,
failing fast when any box is outside the admissible domain. -/
def densities (p : SixBoxModelParameters) (st : ModelState) :
    Except NumericalError (Vec6 ℚ) :=
  match density p st.T.nA st.S.nA with
  | .error e => .error e
  | .ok a =>
  match density p st.T.nP st.S.nP with
  | .error e => .error e
  | .ok b =>
  match density p st.T.so st.S.so with
  | .error e => .error e
  | .ok c =>
  match density p st.T.lA st.S.lA with
  | .error e => .error e
  | .ok d =>
  match density p st.T.lPI st.S.lPI with
  | .error e => .error e
  | .ok e' =>
  match density p st.T.dp st.S.dp with
  | .error e => .error e
  | .ok f => .ok ⟨a, b, c, d, e', f⟩

/-- Modelled from the spec: the volume-weighted conservation update of one
conserved quantity vector `q` (temperature or salinity): each box's change is
the advected-in contributions from connected boxes minus the advected-out
contribution, divided by the box volume, integrated over the step with an
explicit forward scheme.  `extraNA`/`extraNP` carry the freshwater-flux
surface terms applied to the northern boxes (used for salinity). -/
def conservationUpdate (dims : SixBoxModelBoxDimensions) (dt : ℚ) (fl : Fluxes)
    (q : Vec6 ℚ) (extraNA extraNP : ℚ) : Vec6 ℚ where
  nA := q.nA + dt / dims.V_north_A * (fl.M_n_A * (q.lA - q.nA) + extraNA)
  nP := q.nP + dt / dims.V_north_P * (fl.M_n_P * (q.lPI - q.nP) + extraNP)
  so := q.so + dt / dims.V_south *
    (fl.M_eddy_A * (q.lA - q.so) + fl.M_eddy_PI * (q.lPI - q.so))
  lA := q.lA + dt / dims.V_low_A *
    (fl.M_upw_A * (q.dp - q.lA) + fl.M_eddy_A * (q.so - q.lA) +
     fl.M_ex * (q.lPI - q.lA) + fl.D_low_A * (q.dp - q.lA) +
     fl.M_n_A * (q.so - q.lA))
  lPI := q.lPI + dt / dims.V_low_PI *
    (fl.M_upw_PI * (q.dp - q.lPI) + fl.M_eddy_PI * (q.so - q.lPI) +
     fl.M_ex * (q.lA - q.lPI) + fl.D_low_PI * (q.dp - q.lPI) +
     fl.M_n_P * (q.so - q.lPI))
  dp := q.dp + dt / dims.V_deep *
    (fl.M_upw_A * (q.lA - q.dp) + fl.M_upw_PI * (q.lPI - q.dp) +
     fl.M_n_A * (q.nA - q.dp) + fl.M_n_P * (q.nP - q.dp))

/-- The linear congruential pseudo-random generator held by the randomization
configuration: deterministic in the seed. -/
def lcgNext (s : ℕ) : ℕ := (1103515245 * s + 12345) % 2147483648

/-- A centered rational noise sample in [-1, 1] derived from a generator
state. -/
def noiseSample (s : ℕ) : ℚ := ((s % 2001 : ℕ) : ℚ) / 1000 - 1

/-- Modelled from the spec: one STEPPING transition of the integrator:
compute densities, compute fluxes, update temperature and salinity by the
conservation balance, optionally inject the seeded stochastic perturbation,
and produce the step's record.  Division by a zero volume fails fast with a
NumericalError. -/
def stepOnce (dims : SixBoxModelBoxDimensions) (p : SixBoxModelParameters)
    (rand : SixBoxModelRandomization) (dt : ℚ) (st : ModelState) (sd : ℕ) :
    Except NumericalError (StepRecord × ModelState × ℕ) :=
  if dims.V_north_A = 0 ∨ dims.V_north_P = 0 ∨ dims.V_south = 0 ∨
     dims.V_low_A = 0 ∨ dims.V_low_PI = 0 ∨ dims.V_deep = 0 then
    .error .zeroVolume
  else
    match densities p st with
    | .error e => .error e
    | .ok sig =>
      let fl := computeFluxes p sig
      let t1 := conservationUpdate dims dt fl st.T 0 0
      let s1 := conservationUpdate dims dt fl st.S
        (- p.Fwn_A * p.S_ref) (- p.Fwn_P * p.S_ref)
      if rand.amplitude = 0 then
        .ok (⟨sig, t1, s1, fl⟩, ⟨t1, s1⟩, sd)
      else
        let sd' := lcgNext sd
        let delta := rand.amplitude * noiseSample sd'
        let t2 : Vec6 ℚ := ⟨t1.nA + delta, t1.nP + delta, t1.so + delta,
                            t1.lA + delta, t1.lPI + delta, t1.dp + delta⟩
        let s2 : Vec6 ℚ := ⟨s1.nA + delta, s1.nP + delta, s1.so + delta,
                            s1.lA + delta, s1.lPI + delta, s1.dp + delta⟩
        .ok (⟨sig, t2, s2, fl⟩, ⟨t2, s2⟩, sd')

/-- Modelled from the spec: the integrator loop, executing the STEPPING
transition the given number of times and collecting every step's record in
order; a run either fully completes or fails with no partial result. -/
def runLoop (dims : SixBoxModelBoxDimensions) (p : SixBoxModelParameters)
    (rand : SixBoxModelRandomization) (dt : ℚ) :
    ℕ → ModelState → ℕ → Except NumericalError (List StepRecord)
  | 0, _, _ => .ok []
  | n + 1, st, sd =>
    match stepOnce dims p rand dt st sd with
    | .error e => .error e
    | .ok (r, st', sd') =>
      match runLoop dims p rand dt n st' sd' with
      | .error e => .error e
      | .ok rest => .ok (r :: rest)

/-- The result container: one ordered time series per output quantity.
Scalar transports are 1-D series; T, S and sigma_0 hold one series per box
(the (6, step_count) arrays, first axis indexed by box identity). -/
structure SixBoxModelResult where
  M_n_A : List ℚ
  M_n_P : List ℚ
  M_upw_A : List ℚ
  M_upw_PI : List ℚ
  M_eddy_A : List ℚ
  M_eddy_PI : List ℚ
  M_ex : List ℚ
  D_low_A : List ℚ
  D_low_PI : List ℚ
  T : Vec6 (List ℚ)
  S : Vec6 (List ℚ)
  sigma_0 : Vec6 (List ℚ)
deriving DecidableEq, Repr

/-- The fixed-order unpacking operation; the order is the public contract,
fixed by the tutorial's destructuring at line 149:
(M_n_A, M_n_P, M_upw_A, M_upw_PI, M_eddy_A, M_eddy_PI, M_ex, D_low_A,
D_low_PI, T, S, sigma_0). -/
def SixBoxModelResult.unpack (r : SixBoxModelResult) :
    List ℚ × List ℚ × List ℚ × List ℚ × List ℚ × List ℚ × List ℚ × List ℚ ×
    List ℚ × Vec6 (List ℚ) × Vec6 (List ℚ) × Vec6 (List ℚ) :=
  (r.M_n_A, r.M_n_P, r.M_upw_A, r.M_upw_PI, r.M_eddy_A, r.M_eddy_PI, r.M_ex,
   r.D_low_A, r.D_low_PI, r.T, r.S, r.sigma_0)

/-- Assembling the result container from the ordered step records. -/
def collect (recs : List StepRecord) : SixBoxModelResult where
  M_n_A := recs.map fun r => r.flux.M_n_A
  M_n_P := recs.map fun r => r.flux.M_n_P
  M_upw_A := recs.map fun r => r.flux.M_upw_A
  M_upw_PI := recs.map fun r => r.flux.M_upw_PI
  M_eddy_A := recs.map fun r => r.flux.M_eddy_A
  M_eddy_PI := recs.map fun r => r.flux.M_eddy_PI
  M_ex := recs.map fun r => r.flux.M_ex
  D_low_A := recs.map fun r => r.flux.D_low_A
  D_low_PI := recs.map fun r => r.flux.D_low_PI
  T := ⟨recs.map fun r => r.T.nA, recs.map fun r => r.T.nP,
        recs.map fun r => r.T.so, recs.map fun r => r.T.lA,
        recs.map fun r => r.T.lPI, recs.map fun r => r.T.dp⟩
  S := ⟨recs.map fun r => r.S.nA, recs.map fun r => r.S.nP,
        recs.map fun r => r.S.so, recs.map fun r => r.S.lA,
        recs.map fun r => r.S.lPI, recs.map fun r => r.S.dp⟩
  sigma_0 := ⟨recs.map fun r => r.sigma.nA, recs.map fun r => r.sigma.nP,
              recs.map fun r => r.sigma.so, recs.map fun r => r.sigma.lA,
              recs.map fun r => r.sigma.lPI, recs.map fun r => r.sigma.dp⟩

/-- Modelled from the spec: the single entry point
`six_box_model(dimensions, initial_conditions, parameters, time_step,
randomization)`, a synchronous run that returns the completed result or fails
with a NumericalError. -/
def six_box_model (dims : SixBoxModelBoxDimensions)
    (init : SixBoxModelInitConditions) (p : SixBoxModelParameters)
    (ts : SixBoxModelTimeStep) (rand : SixBoxModelRandomization) :
    Except NumericalError SixBoxModelResult :=
  match runLoop dims p rand ts.dt ts.n_steps (initState init) rand.seed with
  | .error e => .error e
  | .ok recs => .ok (collect recs)

/-- The tutorial's parameter-sweep loop (lines 243-247): the shared parameter
object has its `Fwn_A` field reassigned before each run, and the mutated
object is passed to the next run; each run's result is appended in order. -/
def sweepLoop (dims : SixBoxModelBoxDimensions)
    (init : SixBoxModelInitConditions) (ts : SixBoxModelTimeStep)
    (rand : SixBoxModelRandomization) (p : SixBoxModelParameters) :
    List ℚ → List (Except NumericalError SixBoxModelResult)
  | [] => []
  | f :: fs =>
    let p' := { p with Fwn_A := f }
    six_box_model dims init p' ts rand :: sweepLoop dims init ts rand p' fs

/-- The per-box density vector given by applying the equation-of-state formula
identically and independently to every box of a state. -/
def sigmaOf (p : SixBoxModelParameters) (st : ModelState) : Vec6 ℚ where
  nA := sigma0Formula p st.T.nA st.S.nA
  nP := sigma0Formula p st.T.nP st.S.nP
  so := sigma0Formula p st.T.so st.S.so
  lA := sigma0Formula p st.T.lA st.S.lA
  lPI := sigma0Formula p st.T.lPI st.S.lPI
  dp := sigma0Formula p st.T.dp st.S.dp

/-- A state is admissible when every one of the six boxes carries an
in-domain (temperature, salinity) pair for the equation of state. -/
def stateAdmissible (st : ModelState) : Prop :=
  admissibleTS st.T.nA st.S.nA ∧ admissibleTS st.T.nP st.S.nP ∧
  admissibleTS st.T.so st.S.so ∧ admissibleTS st.T.lA st.S.lA ∧
  admissibleTS st.T.lPI st.S.lPI ∧ admissibleTS st.T.dp st.S.dp

instance (st : ModelState) : Decidable (stateAdmissible st) := by
  unfold stateAdmissible; infer_instance

/-- The result-shape invariant: every scalar transport series has length `n`
and each of the six per-box rows of T, S and sigma_0 has length `n` (the
(6, n) arrays). -/
def shapesOk (r : SixBoxModelResult) (n : ℕ) : Prop :=
  r.M_n_A.length = n ∧ r.M_n_P.length = n ∧ r.M_upw_A.length = n ∧
  r.M_upw_PI.length = n ∧ r.M_eddy_A.length = n ∧ r.M_eddy_PI.length = n ∧
  r.M_ex.length = n ∧ r.D_low_A.length = n ∧ r.D_low_PI.length = n ∧
  r.T.nA.length = n ∧ r.T.nP.length = n ∧ r.T.so.length = n ∧
  r.T.lA.length = n ∧ r.T.lPI.length = n ∧ r.T.dp.length = n ∧
  r.S.nA.length = n ∧ r.S.nP.length = n ∧ r.S.so.length = n ∧
  r.S.lA.length = n ∧ r.S.lPI.length = n ∧ r.S.dp.length = n ∧
  r.sigma_0.nA.length = n ∧ r.sigma_0.nP.length = n ∧ r.sigma_0.so.length = n ∧
  r.sigma_0.lA.length = n ∧ r.sigma_0.lPI.length = n ∧ r.sigma_0.dp.length = n

/-- A completed integrator loop records exactly one step record per executed
step. -/
theorem runLoop_length (dims : SixBoxModelBoxDimensions)
    (p : SixBoxModelParameters) (rand : SixBoxModelRandomization) (dt : ℚ) :
    ∀ (n : ℕ) (st : ModelState) (sd : ℕ) (recs : List StepRecord),
      runLoop dims p rand dt n st sd = .ok recs → recs.length = n := by
  intro n
  induction n with
  | zero =>
    intro st sd recs h
    simp only [runLoop] at h
    cases h
    rfl
  | succ k ih =>
    intro st sd recs h
    unfold runLoop at h
    cases hs : stepOnce dims p rand dt st sd with
    | error e => simp [hs] at h
    | ok trip =>
      obtain ⟨r, st', sd'⟩ := trip
      simp only [hs] at h
      cases hr : runLoop dims p rand dt k st' sd' with
      | error e => simp [hr] at h
      | ok rest =>
        simp only [hr] at h
        cases h
        simpa using ih st' sd' rest hr

/-- The one-field functional update used by the sweep: updating `Fwn_A` twice
keeps only the last value. -/
theorem params_update_last_wins (p : SixBoxModelParameters) (f g : ℚ) :
    ({ { p with Fwn_A := f } with Fwn_A := g } : SixBoxModelParameters) =
      { p with Fwn_A := g } := rfl

/-- C1: for every completed run, the result's `unpack()` returns exactly the
twelve quantities as a tuple in the fixed order (M_n_A, M_n_P, M_upw_A,
M_upw_PI, M_eddy_A, M_eddy_PI, M_ex, D_low_A, D_low_PI, T, S, sigma_0). -/
theorem unpack_fixed_order (r : SixBoxModelResult) :
    r.unpack = (r.M_n_A, r.M_n_P, r.M_upw_A, r.M_upw_PI, r.M_eddy_A,
      r.M_eddy_PI, r.M_ex, r.D_low_A, r.D_low_PI, r.T, r.S, r.sigma_0) := rfl

/-- C9: the tuple returned by `unpack()` is consistent with the named
per-quantity attributes: the element at each fixed position is the same data
as the correspondingly named attribute (in particular the first element is
`M_n_A`). -/
theorem unpack_matches_attributes (r : SixBoxModelResult) :
    r.unpack.1 = r.M_n_A ∧ r.unpack.2.1 = r.M_n_P ∧
    r.unpack.2.2.1 = r.M_upw_A ∧ r.unpack.2.2.2.1 = r.M_upw_PI ∧
    r.unpack.2.2.2.2.1 = r.M_eddy_A ∧ r.unpack.2.2.2.2.2.1 = r.M_eddy_PI ∧
    r.unpack.2.2.2.2.2.2.1 = r.M_ex ∧ r.unpack.2.2.2.2.2.2.2.1 = r.D_low_A ∧
    r.unpack.2.2.2.2.2.2.2.2.1 = r.D_low_PI ∧
    r.unpack.2.2.2.2.2.2.2.2.2.1 = r.T ∧
    r.unpack.2.2.2.2.2.2.2.2.2.2.1 = r.S ∧
    r.unpack.2.2.2.2.2.2.2.2.2.2.2 = r.sigma_0 :=
  ⟨rfl, rfl, rfl, rfl, rfl, rfl, rfl, rfl, rfl, rfl, rfl, rfl⟩

/-- C2: whenever the run entry point returns a result, every scalar transport
series has shape (step_count,) and every per-box array T, S, sigma_0 has
shape (6, step_count), where step_count is the duration divided by the step
size under the fixed floor rounding rule. -/
theorem run_result_shapes (dims : SixBoxModelBoxDimensions)
    (init : SixBoxModelInitConditions) (p : SixBoxModelParameters)
    (ts : SixBoxModelTimeStep) (rand : SixBoxModelRandomization)
    (r : SixBoxModelResult)
    (h : six_box_model dims init p ts rand = .ok r) :
    shapesOk r ts.n_steps := by
  unfold six_box_model at h
  cases hr : runLoop dims p rand ts.dt ts.n_steps (initState init) rand.seed with
  | error e => rw [hr] at h; cases h
  | ok recs =>
    rw [hr] at h
    cases h
    have hlen := runLoop_length dims p rand ts.dt ts.n_steps (initState init)
      rand.seed recs hr
    simp [collect, shapesOk, hlen]

/-- Witness for C2: a concrete one-step run returns a result and the shape
invariant holds for it at step count 1. -/
theorem run_result_shapes_witness :
    ∃ r, six_box_model {} {} {} { duration := 1, dt := 1 } {} = .ok r ∧
      shapesOk r (SixBoxModelTimeStep.n_steps { duration := 1, dt := 1 }) := by
  have hok : (six_box_model {} {} {} { duration := 1, dt := 1 } {}).isOk = true := by
    have hn : SixBoxModelTimeStep.n_steps { duration := 1, dt := 1 } = 1 := by
      norm_num [SixBoxModelTimeStep.n_steps]
    norm_num [six_box_model, hn, runLoop, stepOnce, densities, density,
      admissibleTS, sigma0Formula, computeFluxes, conservationUpdate, initState,
      overturning, Except.isOk, Except.toBool]
  cases h : six_box_model {} {} {} { duration := 1, dt := 1 } {} with
  | error e => rw [h] at hok; simp [Except.isOk, Except.toBool] at hok
  | ok r => exact ⟨r, rfl, run_result_shapes {} {} {} _ {} r h⟩

/-- C3: two runs invoked with identical configuration groups, including an
identical randomization seed, produce identical results for all twelve
output quantities. -/
theorem run_reproducible (d1 d2 : SixBoxModelBoxDimensions)
    (i1 i2 : SixBoxModelInitConditions) (p1 p2 : SixBoxModelParameters)
    (t1 t2 : SixBoxModelTimeStep) (r1 r2 : SixBoxModelRandomization)
    (hd : d1 = d2) (hi : i1 = i2) (hp : p1 = p2) (ht : t1 = t2)
    (hr : r1 = r2) :
    six_box_model d1 i1 p1 t1 r1 = six_box_model d2 i2 p2 t2 r2 := by
  subst hd hi hp ht hr; rfl

/-- Witness for C3: two runs with the same concrete configuration groups
(the randomization group written out explicitly on one side) coincide. -/
theorem run_reproducible_witness :
    six_box_model {} {} {} {} { amplitude := 0, seed := 42 } =
      six_box_model {} {} {} {} {} :=
  run_reproducible {} {} {} {} {} {} {} {} { amplitude := 0, seed := 42 } {}
    rfl rfl rfl rfl rfl

/-- C4: in the tutorial's sweep loop, which reassigns `Fwn_A` on a shared
parameter object before each run, every run's result is exactly the run of
the configuration values in effect at its invocation; later reassignments or
runs leave earlier results unchanged. -/
theorem sweep_no_retroaction (dims : SixBoxModelBoxDimensions)
    (init : SixBoxModelInitConditions) (ts : SixBoxModelTimeStep)
    (rand : SixBoxModelRandomization) :
    ∀ (fs : List ℚ) (p : SixBoxModelParameters),
      sweepLoop dims init ts rand p fs =
        fs.map fun f => six_box_model dims init { p with Fwn_A := f } ts rand := by
  intro fs
  induction fs with
  | nil => intro p; rfl
  | cons f fs ih =>
    intro p
    simp only [sweepLoop, List.map_cons]
    rw [ih { p with Fwn_A := f }]

/-- C5: constructing box dimensions with a zero or negative volume fails at
validation time with a ConfigurationError naming a volume field; non-positive
step size and negative randomization amplitude likewise fail at validation
time; and the run itself can only return a completed result or a
NumericalError, never a ConfigurationError. -/
theorem configuration_error_construction_only :
    (∀ d : SixBoxModelBoxDimensions,
      (d.V_north_A ≤ 0 ∨ d.V_north_P ≤ 0 ∨ d.V_south ≤ 0 ∨ d.V_low_A ≤ 0 ∨
       d.V_low_PI ≤ 0 ∨ d.V_deep ≤ 0) →
      ∃ f, d.validate = .error (.nonPositiveVolume f)) ∧
    (∀ ts : SixBoxModelTimeStep, ts.dt ≤ 0 →
      ∃ f, ts.validate = .error (.nonPositiveStep f)) ∧
    (∀ rz : SixBoxModelRandomization, rz.amplitude < 0 →
      rz.validate = .error (.badRandomization .amplitudeField)) ∧
    (∀ (dims : SixBoxModelBoxDimensions) (init : SixBoxModelInitConditions)
       (p : SixBoxModelParameters) (ts : SixBoxModelTimeStep)
       (rand : SixBoxModelRandomization),
      (∃ res, six_box_model dims init p ts rand = .ok res) ∨
      (∃ e : NumericalError, six_box_model dims init p ts rand = .error e)) := by
  refine ⟨?_, ?_, ?_, ?_⟩
  · intro d hd
    by_cases h1 : d.V_north_A ≤ 0
    · exact ⟨.vNorthA, by simp [SixBoxModelBoxDimensions.validate, h1]⟩
    by_cases h2 : d.V_north_P ≤ 0
    · exact ⟨.vNorthP, by simp [SixBoxModelBoxDimensions.validate, h1, h2]⟩
    by_cases h3 : d.V_south ≤ 0
    · exact ⟨.vSouth, by simp [SixBoxModelBoxDimensions.validate, h1, h2, h3]⟩
    by_cases h4 : d.V_low_A ≤ 0
    · exact ⟨.vLowA, by simp [SixBoxModelBoxDimensions.validate, h1, h2, h3, h4]⟩
    by_cases h5 : d.V_low_PI ≤ 0
    · exact ⟨.vLowPI,
        by simp [SixBoxModelBoxDimensions.validate, h1, h2, h3, h4, h5]⟩
    have h6 : d.V_deep ≤ 0 := by tauto
    exact ⟨.vDeep,
      by simp [SixBoxModelBoxDimensions.validate, h1, h2, h3, h4, h5, h6]⟩
  · intro ts h
    exact ⟨.dtField, by simp [SixBoxModelTimeStep.validate, h]⟩
  · intro rz h
    simp [SixBoxModelRandomization.validate, h]
  · intro dims init p ts rand
    cases h : six_box_model dims init p ts rand with
    | ok res => exact .inl ⟨res, rfl⟩
    | error e => exact .inr ⟨e, rfl⟩

/-- Witness for C5: a volume of -1 is rejected with a volume
ConfigurationError, a zero step size and a negative amplitude are rejected,
and the default run resolves to a result or a NumericalError. -/
theorem configuration_error_construction_only_witness :
    (∃ f, ({ V_north_A := -1 } : SixBoxModelBoxDimensions).validate =
      .error (.nonPositiveVolume f)) ∧
    (∃ f, ({ dt := 0 } : SixBoxModelTimeStep).validate =
      .error (.nonPositiveStep f)) ∧
    (({ amplitude := -1 } : SixBoxModelRandomization).validate =
      .error (.badRandomization .amplitudeField)) ∧
    ((∃ res, six_box_model {} {} {} {} {} = .ok res) ∨
     (∃ e : NumericalError, six_box_model {} {} {} {} {} = .error e)) :=
  ⟨configuration_error_construction_only.1 _ (.inl (by norm_num)),
   configuration_error_construction_only.2.1 _ (by norm_num),
   configuration_error_construction_only.2.2.1 _ (by norm_num),
   configuration_error_construction_only.2.2.2 {} {} {} {} {}⟩

/-- C6: whenever a computed quantity leaves its admissible domain the run
fails fast with a NumericalError and nothing is silently written into a
result: the density computation errors on any out-of-range (T, S); a step
over a zero volume errors before dividing; from any mid-run state with any
box out of domain, the remaining loop errors instead of recording; the run
entry point propagates both failures; and a loop that returns records never
consumed an inadmissible state. -/
theorem numerical_error_fail_fast :
    (∀ (p : SixBoxModelParameters) (t s : ℚ), ¬ admissibleTS t s →
      density p t s = .error .densityDomain) ∧
    (∀ (dims : SixBoxModelBoxDimensions) (p : SixBoxModelParameters)
       (rand : SixBoxModelRandomization) (dt : ℚ) (st : ModelState) (sd : ℕ),
      (dims.V_north_A = 0 ∨ dims.V_north_P = 0 ∨ dims.V_south = 0 ∨
       dims.V_low_A = 0 ∨ dims.V_low_PI = 0 ∨ dims.V_deep = 0) →
      stepOnce dims p rand dt st sd = .error .zeroVolume) ∧
    (∀ (dims : SixBoxModelBoxDimensions) (p : SixBoxModelParameters)
       (rand : SixBoxModelRandomization) (dt : ℚ) (st : ModelState)
       (sd n : ℕ),
      dims.allPositive → ¬ stateAdmissible st →
      runLoop dims p rand dt (n + 1) st sd = .error .densityDomain) ∧
    (∀ (dims : SixBoxModelBoxDimensions) (init : SixBoxModelInitConditions)
       (p : SixBoxModelParameters) (ts : SixBoxModelTimeStep)
       (rand : SixBoxModelRandomization),
      (dims.V_north_A = 0 ∨ dims.V_north_P = 0 ∨ dims.V_south = 0 ∨
       dims.V_low_A = 0 ∨ dims.V_low_PI = 0 ∨ dims.V_deep = 0) →
      1 ≤ ts.n_steps →
      six_box_model dims init p ts rand = .error .zeroVolume) ∧
    (∀ (dims : SixBoxModelBoxDimensions) (init : SixBoxModelInitConditions)
       (p : SixBoxModelParameters) (ts : SixBoxModelTimeStep)
       (rand : SixBoxModelRandomization),
      dims.allPositive → ¬ stateAdmissible (initState init) →
      1 ≤ ts.n_steps →
      six_box_model dims init p ts rand = .error .densityDomain) ∧
    (∀ (dims : SixBoxModelBoxDimensions) (p : SixBoxModelParameters)
       (rand : SixBoxModelRandomization) (dt : ℚ) (st : ModelState)
       (sd n : ℕ) (recs : List StepRecord),
      runLoop dims p rand dt (n + 1) st sd = .ok recs →
      stateAdmissible st) := by
  have hdensities : ∀ (p : SixBoxModelParameters) (st : ModelState),
      ¬ stateAdmissible st → densities p st = .error .densityDomain := by
    intro p st hst
    unfold densities
    by_cases h1 : admissibleTS st.T.nA st.S.nA
    case neg => simp [density, h1]
    case pos =>
    by_cases h2 : admissibleTS st.T.nP st.S.nP
    case neg => simp [density, h1, h2]
    case pos =>
    by_cases h3 : admissibleTS st.T.so st.S.so
    case neg => simp [density, h1, h2, h3]
    case pos =>
    by_cases h4 : admissibleTS st.T.lA st.S.lA
    case neg => simp [density, h1, h2, h3, h4]
    case pos =>
    by_cases h5 : admissibleTS st.T.lPI st.S.lPI
    case neg => simp [density, h1, h2, h3, h4, h5]
    case pos =>
    by_cases h6 : admissibleTS st.T.dp st.S.dp
    case neg => simp [density, h1, h2, h3, h4, h5, h6]
    case pos => exact absurd ⟨h1, h2, h3, h4, h5, h6⟩ hst
  have hstepZero : ∀ (dims : SixBoxModelBoxDimensions)
      (p : SixBoxModelParameters) (rand : SixBoxModelRandomization) (dt : ℚ)
      (st : ModelState) (sd : ℕ),
      (dims.V_north_A = 0 ∨ dims.V_north_P = 0 ∨ dims.V_south = 0 ∨
       dims.V_low_A = 0 ∨ dims.V_low_PI = 0 ∨ dims.V_deep = 0) →
      stepOnce dims p rand dt st sd = .error .zeroVolume := by
    intro dims p rand dt st sd hv
    unfold stepOnce
    rw [if_pos hv]
  have hstepDen : ∀ (dims : SixBoxModelBoxDimensions)
      (p : SixBoxModelParameters) (rand : SixBoxModelRandomization) (dt : ℚ)
      (st : ModelState) (sd : ℕ),
      dims.allPositive → ¬ stateAdmissible st →
      stepOnce dims p rand dt st sd = .error .densityDomain := by
    intro dims p rand dt st sd hpos hst
    obtain ⟨v1, v2, v3, v4, v5, v6⟩ := hpos
    have hvol : ¬ (dims.V_north_A = 0 ∨ dims.V_north_P = 0 ∨
        dims.V_south = 0 ∨ dims.V_low_A = 0 ∨ dims.V_low_PI = 0 ∨
        dims.V_deep = 0) := by
      push_neg
      exact ⟨ne_of_gt v1, ne_of_gt v2, ne_of_gt v3, ne_of_gt v4, ne_of_gt v5,
        ne_of_gt v6⟩
    unfold stepOnce
    rw [if_neg hvol, hdensities p st hst]
  refine ⟨fun p t s h => by simp [density, h], hstepZero, ?_, ?_, ?_, ?_⟩
  · intro dims p rand dt st sd n hpos hst
    unfold runLoop
    rw [hstepDen dims p rand dt st sd hpos hst]
  · intro dims init p ts rand hv hsteps
    obtain ⟨k, hk⟩ : ∃ k, ts.n_steps = k + 1 := ⟨ts.n_steps - 1, by omega⟩
    unfold six_box_model
    rw [hk]
    unfold runLoop
    rw [hstepZero dims p rand ts.dt (initState init) rand.seed hv]
  · intro dims init p ts rand hpos hst hsteps
    obtain ⟨k, hk⟩ : ∃ k, ts.n_steps = k + 1 := ⟨ts.n_steps - 1, by omega⟩
    unfold six_box_model
    rw [hk]
    unfold runLoop
    rw [hstepDen dims p rand ts.dt (initState init) rand.seed hpos hst]
  · intro dims p rand dt st sd n recs h
    by_cases hst : stateAdmissible st
    · exact hst
    · exfalso
      unfold runLoop at h
      cases hs : stepOnce dims p rand dt st sd with
      | error e => simp [hs] at h
      | ok trip =>
        by_cases hv : (dims.V_north_A = 0 ∨ dims.V_north_P = 0 ∨
            dims.V_south = 0 ∨ dims.V_low_A = 0 ∨ dims.V_low_PI = 0 ∨
            dims.V_deep = 0)
        · rw [hstepZero dims p rand dt st sd hv] at hs
          cases hs
        · unfold stepOnce at hs
          rw [if_neg hv, hdensities p st hst] at hs
          simp at hs

/-- Witness for C6: the density computation errors at T = 100; a zero deep
volume fails the step and the whole run with the zero-volume error; a
mid-run state whose SOUTH box is at T = 60 aborts the remaining loop; a run
whose LOW_PI box starts at T = 100 fails fast; and the default loop, which
does return records, started from an admissible state. -/
theorem numerical_error_fail_fast_witness :
    density ({} : SixBoxModelParameters) 100 35 = .error .densityDomain ∧
    stepOnce { V_deep := 0 } {} {} 1 (initState {}) 0 = .error .zeroVolume ∧
    runLoop {} {} {} 1 (2 + 1) ⟨⟨4, 5, 60, 20, 22, 3⟩, ⟨35, 34, 35, 36, 35, 35⟩⟩ 7 =
      .error .densityDomain ∧
    six_box_model { V_deep := 0 } {} {} {} {} = .error .zeroVolume ∧
    six_box_model {} { T_low_PI0 := 100 } {} {} {} = .error .densityDomain ∧
    stateAdmissible (initState {}) := by
  refine ⟨numerical_error_fail_fast.1 {} 100 35 (by norm_num [admissibleTS]),
    numerical_error_fail_fast.2.1 _ _ _ _ _ _ (by norm_num),
    numerical_error_fail_fast.2.2.1 {} {} {} 1 _ 7 2
      (by norm_num [SixBoxModelBoxDimensions.allPositive])
      (by norm_num [stateAdmissible, admissibleTS]),
    numerical_error_fail_fast.2.2.2.1 _ {} {} {} {} (by norm_num)
      (by norm_num [SixBoxModelTimeStep.n_steps]),
    numerical_error_fail_fast.2.2.2.2.1 {} _ {} {} {}
      (by norm_num [SixBoxModelBoxDimensions.allPositive])
      (by norm_num [stateAdmissible, admissibleTS, initState])
      (by norm_num [SixBoxModelTimeStep.n_steps]),
    ?_⟩
  have hok : (runLoop {} {} {} 1 3 (initState {}) 42).isOk = true := by
    norm_num [runLoop, stepOnce, densities, density, admissibleTS,
      sigma0Formula, computeFluxes, conservationUpdate, initState, overturning,
      Except.isOk, Except.toBool]
  cases h : runLoop {} {} {} 1 3 (initState {}) 42 with
  | error e => rw [h] at hok; simp [Except.isOk, Except.toBool] at hok
  | ok recs =>
    exact numerical_error_fail_fast.2.2.2.2.2 {} {} {} 1 (initState {}) 42 2
      recs h

/-- C7: reversing the sign of the temperature and salinity gradients between
a northern box and its corresponding low box reverses the sign of the
corresponding overturning transport (M_n_A for the Atlantic pair, M_n_P for
the Pacific pair) computed by the flux model. -/
theorem overturning_sign_reversal (p : SixBoxModelParameters)
    (st st' : ModelState)
    (hTA : st'.T.nA - st'.T.lA = -(st.T.nA - st.T.lA))
    (hSA : st'.S.nA - st'.S.lA = -(st.S.nA - st.S.lA))
    (hTP : st'.T.nP - st'.T.lPI = -(st.T.nP - st.T.lPI))
    (hSP : st'.S.nP - st'.S.lPI = -(st.S.nP - st.S.lPI)) :
    (computeFluxes p (sigmaOf p st')).M_n_A =
      -(computeFluxes p (sigmaOf p st)).M_n_A ∧
    (computeFluxes p (sigmaOf p st')).M_n_P =
      -(computeFluxes p (sigmaOf p st)).M_n_P := by
  unfold computeFluxes sigmaOf overturning sigma0Formula
  constructor
  · linear_combination p.gamma * p.beta * hSA - p.gamma * p.alpha * hTA
  · linear_combination p.gamma * p.beta * hSP - p.gamma * p.alpha * hTP

/-- Witness for C7: a concrete pair of states whose north/low gradients are
exact opposites yields overturning transports of opposite sign in both
basins. -/
theorem overturning_sign_reversal_witness :
    (computeFluxes {}
        (sigmaOf {} ⟨⟨20, 22, 6, 4, 5, 3⟩, ⟨36, 35, 35, 35, 34, 35⟩⟩)).M_n_A =
      -(computeFluxes {}
        (sigmaOf {} ⟨⟨4, 5, 6, 20, 22, 3⟩, ⟨35, 34, 35, 36, 35, 35⟩⟩)).M_n_A ∧
    (computeFluxes {}
        (sigmaOf {} ⟨⟨20, 22, 6, 4, 5, 3⟩, ⟨36, 35, 35, 35, 34, 35⟩⟩)).M_n_P =
      -(computeFluxes {}
        (sigmaOf {} ⟨⟨4, 5, 6, 20, 22, 3⟩, ⟨35, 34, 35, 36, 35, 35⟩⟩)).M_n_P :=
  overturning_sign_reversal {}
    ⟨⟨4, 5, 6, 20, 22, 3⟩, ⟨35, 34, 35, 36, 35, 35⟩⟩
    ⟨⟨20, 22, 6, 4, 5, 3⟩, ⟨36, 35, 35, 35, 34, 35⟩⟩
    (by norm_num) (by norm_num) (by norm_num) (by norm_num)

/-- C8: with all five configuration groups at their defaults (a three-step
duration and zero randomization amplitude) the run completes without error,
and T, S and sigma_0 carry an entry for all six boxes at every recorded
step. -/
theorem default_short_run_completes :
    (six_box_model {} {} {} {} {}).isOk = true ∧
    Option.elim (six_box_model {} {} {} {} {}).toOption True
      (fun r => shapesOk r 3) := by
  have hn : SixBoxModelTimeStep.n_steps {} = 3 := by
    norm_num [SixBoxModelTimeStep.n_steps]
  constructor
  · norm_num [six_box_model, hn, runLoop, stepOnce, densities, density,
      admissibleTS, sigma0Formula, computeFluxes, conservationUpdate, initState,
      overturning, Except.isOk, Except.toBool]
  · norm_num [six_box_model, hn, runLoop, stepOnce, densities, density,
      admissibleTS, sigma0Formula, computeFluxes, conservationUpdate, initState,
      overturning, Except.toOption, Option.elim, collect, shapesOk]

/-- C10: a parameters object accepts reassignment of `Fwn_A` after
construction (modelled as the snapshot update the sweep performs before each
run), and a subsequent run observes and uses the newly assigned value: two
different assignments produce observably different salinity series. -/
theorem parameter_mutation_observed :
    (∀ (p : SixBoxModelParameters) (f : ℚ),
      ({ p with Fwn_A := f } : SixBoxModelParameters).Fwn_A = f) ∧
    (six_box_model {} {} { ({} : SixBoxModelParameters) with Fwn_A := 0 } {} {}).toOption.map
        (fun r => r.S.nA) ≠
      (six_box_model {} {} { ({} : SixBoxModelParameters) with Fwn_A := 1 } {} {}).toOption.map
        (fun r => r.S.nA) := by
  constructor
  · intro p f; rfl
  · have hn : SixBoxModelTimeStep.n_steps {} = 3 := by
      norm_num [SixBoxModelTimeStep.n_steps]
    norm_num [six_box_model, hn, runLoop, stepOnce, densities, density,
      admissibleTS, sigma0Formula, computeFluxes, conservationUpdate, initState,
      overturning, Except.toOption, collect, Option.map]

end PyBamocs
